import Mathlib

/-!
# Verification of the SPADS tutorial/template plugin scripts

Shallow embedding of the Python plugin scripts shipped with SPADS
(`plugins/tutorials/*.py`, `plugins/templates/*.py`).  Each handler is
modelled as a pure function from a host environment (the read-only views
and primitives the `spads` bridge object exposes) and the explicit inputs
to a trace of host-API effects plus a return value.  A handler that would
raise a Python exception returns `none`.
-/

/-- One call made by a plugin into the host API (an observable side effect). -/
inductive Effect where
  | slog (msg : String) (level : Nat)
  | sayBattle (msg : String)
  | sayPrivate (user : String) (msg : String)
  | answer (msg : String)
  | queueLobbyCommand (args : List String)
  | addLobbyCommandHandler (names : List String)
  | removeLobbyCommandHandler (names : List String)
  | addSpadsCommandHandler (names : List String)
  | removeSpadsCommandHandler (names : List String)
  deriving DecidableEq

/-- The host-provided read-only views and primitives used by the plugins:
`fix_string` (string normalization across the Perl bridge), the core
configuration (`getSpadsConf`), the plugin configuration (`getPluginConf`),
`getUserAccessLevel`, the lobby-state constant `LOBBY_STATE_SYNCHRONIZED`,
and the formatted current time used by the `!time` command. -/
structure SpadsEnv where
  fix_string : String → String
  spadsConf : String → String
  pluginConf : String → String
  getUserAccessLevel : String → Int
  LOBBY_STATE_SYNCHRONIZED : Int
  now_string : String

/-- Python `str.split(sep)` for a one-character separator, on character
lists: `''.split(';') = ['']`, `'a;b'.split(';') = ['a','b']`. -/
def splitOnChar (sep : Char) : List Char → List (List Char)
  | [] => [[]]
  | c :: rest =>
    match splitOnChar sep rest with
    | [] => [[]]
    | w :: ws => if c = sep then [] :: w :: ws else (c :: w) :: ws

/-- The characters Python `int()` strips from both ends of its argument. -/
def isPySpace (c : Char) : Bool :=
  c = ' ' || c = '\t' || c = '\n' || c = '\r' || c = '\x0b' || c = '\x0c'

def trimSpaces (l : List Char) : List Char :=
  ((l.dropWhile isPySpace).reverse.dropWhile isPySpace).reverse

def digitsVal (l : List Char) : Nat :=
  l.foldl (fun acc c => acc * 10 + (c.toNat - '0'.toNat)) 0

def isDigits (l : List Char) : Bool :=
  !l.isEmpty && l.all Char.isDigit

/-- Python `int(s)` on a string: optional surrounding whitespace, an
optional sign, then a nonempty digit string; `none` models the
`ValueError` raised on anything else.  (Digit-group underscores and
non-ASCII digits, which CPython also accepts, are not modelled; no
configuration value considered here uses them.) -/
def pyInt? (s : String) : Option Int :=
  match trimSpaces s.data with
  | '-' :: ds => if isDigits ds then some (-(digitsVal ds : Int)) else none
  | '+' :: ds => if isDigits ds then some (digitsVal ds : Int) else none
  | ds => if isDigits ds then some (digitsVal ds : Int) else none

/-- `\w` of Python `re` (restricted to ASCII, which covers every string
handled in these scripts): letters, digits, underscore. -/
def isWordChar (c : Char) : Bool := c.isAlphanum || c = '_'

/-- Whether the character at index `i` of `msg` is a word character
(`false` past either end). -/
def isWordAt (msg : List Char) (i : Nat) : Bool :=
  match msg.get? i with
  | some c => isWordChar c
  | none => false

/-- The `\b` assertion of Python `re` at position `i` of `msg` (positions
run from 0 to `msg.length`): the word-character status changes there. -/
def wordBoundary (msg : List Char) (i : Nat) : Bool :=
  (if i = 0 then false else isWordAt msg (i - 1)) != isWordAt msg i

/-- Case-insensitive equality of character lists (`re.IGNORECASE` on the
escaped literal pattern). -/
def ciEqList (a b : List Char) : Bool :=
  a.map Char.toLower = b.map Char.toLower

/-- The literal word `w` matches `msg` at position `i`, case-insensitively. -/
def matchesAt (msg w : List Char) (i : Nat) : Bool :=
  ciEqList ((msg.drop i).take w.length) w

/-- `re.search(r'\b' + re.escape(w) + r'\b', msg, re.IGNORECASE)` succeeds:
some position carries a word boundary, the literal word (case-folded), and
a closing word boundary.  For the empty word this degenerates to
`re.search(r'\b\b', msg)`, which succeeds exactly when `msg` has any word
boundary at all. -/
def wbSearch (w msg : List Char) : Bool :=
  (List.range (msg.length + 1)).any
    (fun i => wordBoundary msg i && matchesAt msg w i && wordBoundary msg (i + w.length))

/-- `hLobbySaidBattle` from `plugins/tutorials/forbiddenwords.py`:
the SAIDBATTLE handler.  Returns the effect trace, or `none` when the
Python code raises (the only possible raise is `int(pluginConf['immuneLevel'])`
on a non-integer configuration value). -/
def hLobbySaidBattle (env : SpadsEnv) (command user message : String) :
    Option (List Effect) :=
  let user := env.fix_string user
  let message := env.fix_string message
  if user = env.spadsConf "lobbyLogin" then
    some []
  else
    match pyInt? (env.pluginConf "immuneLevel") with
    | none => none
    | some immuneLevel =>
      if immuneLevel ≤ env.getUserAccessLevel user then
        some []
      else
        let forbiddenWords := splitOnChar ';' (env.pluginConf "words").data
        match forbiddenWords.find? (fun w => wbSearch w message.data) with
        | some _ =>
          some [Effect.sayBattle ("Kicking " ++ user ++ " from battle (watch your language!)"),
                Effect.queueLobbyCommand ["KICKFROMBATTLE", user]]
        | none => some []

/-- `hSpadsTime` from `plugins/tutorials/timeplugin.py`: the `!time`
command handler.  Returns the effect trace and the Python return value
(`some 1` on the dry-run path, `none` for Python's implicit `None`). -/
def hSpadsTime (env : SpadsEnv) (source user : String) (params : List String)
    (checkOnly : Bool) : List Effect × Option Int :=
  if checkOnly then
    ([], some 1)
  else
    ([Effect.answer ("Current local time: " ++ env.now_string)], none)

/-- `hMyCommand` from `plugins/templates/commented/mynewcommandplugin.py`
(identical in the raw template): the `!myCommand` handler. -/
def hMyCommand (env : SpadsEnv) (source user : String) (params : List String)
    (checkOnly : Bool) : List Effect × Option Int :=
  if checkOnly then
    ([], some 1)
  else
    let user := env.fix_string user
    let params := params.map env.fix_string
    let paramsString := String.intercalate "," params
    ([Effect.slog ("User " ++ user ++ " called command myCommand with parameter(s) \"" ++
        paramsString ++ "\"") 3], none)

/-- `HelloWorld.onPrivateMsg` from `plugins/tutorials/helloworld.py`. -/
def onPrivateMsg (env : SpadsEnv) (userName message : String) :
    List Effect × Int :=
  let userName := env.fix_string userName
  let message := env.fix_string message
  (if message = "Hello" then [Effect.sayPrivate userName "Hello World"] else [], 0)

/-! ## Lifecycle state

The host keeps the registration maps; the plugins only add and remove
their own entries, so per plugin we track the list of names it currently
has registered, plus the lobby state returned by `getLobbyState()`. -/

/-- State visible to the ForbiddenWords plugin: the lobby state and the
names of the lobby command handlers it has registered. -/
structure FwState where
  lobbyState : Int
  lobbyCommandHandlers : List String
  deriving DecidableEq

/-- State visible to the TimePlugin plugin: the names of the SPADS command
handlers it has registered. -/
structure TpState where
  spadsCommandHandlers : List String
  deriving DecidableEq

/-- Registering a handler name (a map insert: a no-op on the name list if
the name is already present). -/
def addHandler (n : String) (l : List String) : List String :=
  if n ∈ l then l else l ++ [n]

/-- Removing a list of handler names from the registration list (a no-op
for names already absent). -/
def removeAll (names : List String) (l : List String) : List String :=
  l.filter (fun n => !(names.contains n))

/-- `ForbiddenWords.__init__`: logs the load message, then registers the
SAIDBATTLE handler only when the lobby state is already synchronized. -/
def ForbiddenWords_init (env : SpadsEnv) (s : FwState) : FwState × List Effect :=
  let logE := Effect.slog "Plugin loaded (version 0.1)" 3
  if env.LOBBY_STATE_SYNCHRONIZED ≤ s.lobbyState then
    ({ s with lobbyCommandHandlers := addHandler "SAIDBATTLE" s.lobbyCommandHandlers },
     [logE, Effect.addLobbyCommandHandler ["SAIDBATTLE"]])
  else
    (s, [logE])

/-- `ForbiddenWords.onLobbySynchronized`: unconditionally (re)registers the
SAIDBATTLE handler, with no state check. -/
def ForbiddenWords_onLobbySynchronized (s : FwState) : FwState × List Effect :=
  ({ s with lobbyCommandHandlers := addHandler "SAIDBATTLE" s.lobbyCommandHandlers },
   [Effect.addLobbyCommandHandler ["SAIDBATTLE"]])

/-- `ForbiddenWords.onUnload`: removes the SAIDBATTLE handler only when the
lobby state is at least synchronized, then logs the unload message. -/
def ForbiddenWords_onUnload (env : SpadsEnv) (s : FwState) : FwState × List Effect :=
  if env.LOBBY_STATE_SYNCHRONIZED ≤ s.lobbyState then
    ({ s with lobbyCommandHandlers := removeAll ["SAIDBATTLE"] s.lobbyCommandHandlers },
     [Effect.removeLobbyCommandHandler ["SAIDBATTLE"], Effect.slog "Plugin unloaded" 3])
  else
    (s, [Effect.slog "Plugin unloaded" 3])

/-- The host-side effect of a disconnection: all lobby command handlers are
dropped (spec §3/§4.1: the host clears all registrations on disconnect);
`d` is the new (non-synchronized) lobby state. -/
def hostDisconnect (d : Int) (s : FwState) : FwState :=
  { lobbyState := d, lobbyCommandHandlers := [] }

/-- `TimePlugin.onUnload`: unconditionally removes the `time` command
handler, then logs the unload message. -/
def TimePlugin_onUnload (s : TpState) : TpState × List Effect :=
  ({ spadsCommandHandlers := removeAll ["time"] s.spadsCommandHandlers },
   [Effect.removeSpadsCommandHandler ["time"], Effect.slog "Plugin unloaded" 3])

/-! ## Setting validators

`forbiddenwords.py` declares `presetPluginParams = { 'immuneLevel':
['integer','integerRange'] }`: a configured value is accepted when it
matches either type. -/

/-- Modelled from the spec: the `integer` validator tag.  The validator
regexes live in `%paramTypes` of `SpadsConf.pm` (the host side, not part
of these scripts); the spec describes the tag as accepting an integer. -/
def isIntegerParam (s : String) : Bool := isDigits s.data

/-- Modelled from the spec: the `integerRange` validator tag ("integer
range" in the spec), accepting two dash-separated integers such as
`100-120`.  The validator regexes live in `%paramTypes` of `SpadsConf.pm`
(the host side, not part of these scripts). -/
def isIntegerRangeParam (s : String) : Bool :=
  match splitOnChar '-' s.data with
  | [a, b] => isDigits a && isDigits b
  | _ => false

/-- A value permitted for `immuneLevel` by the declared validator tag list
`['integer','integerRange']`. -/
def allowedImmuneLevel (s : String) : Bool :=
  isIntegerParam s || isIntegerRangeParam s

/-- A reply effect: a message sent back to a user or channel (as opposed
to a log entry or a handler-registration call). -/
def isReply : Effect → Bool
  | Effect.sayBattle _ => true
  | Effect.sayPrivate _ _ => true
  | Effect.answer _ => true
  | Effect.queueLobbyCommand _ => false
  | _ => false

/-- `sub` occurs as a substring of `s`. -/
def strContains (s sub : String) : Bool :=
  (List.range (s.data.length + 1)).any
    (fun i => ((s.data.drop i).take sub.data.length) == sub.data)

/-- A concrete host environment: identity `fix_string`, core configuration
answering `SPADS` for `lobbyLogin`, plugin configuration with the given
`words` and `immuneLevel` values, every user at access level 0, and the
synchronized lobby-state constant at 4. -/
def mkEnv (words immune : String) : SpadsEnv where
  fix_string := id
  spadsConf := fun _ => "SPADS"
  pluginConf := fun k => if k = "words" then words else immune
  getUserAccessLevel := fun _ => 0
  LOBBY_STATE_SYNCHRONIZED := 4
  now_string := "12:00:00"

/-! ## Theorems -/

/-- Removing a registered-name list whose every element is covered by the
removal list empties it. -/
theorem removeAll_eq_nil {names l : List String}
    (h : ∀ n ∈ l, n ∈ names) : removeAll names l = [] := by
  unfold removeAll
  rw [List.filter_eq_nil_iff]
  intro a ha
  simp [h a ha]

/-- C1 counterexample: in a non-synchronized lobby state,
`ForbiddenWords.onUnload` performs no handler-removal call at all — its
trace is just the unload log entry — contradicting the claim that removal
is attempted (as a no-op) even when the connection is not active. -/
theorem C1_counterexample :
    (⟨0, []⟩ : FwState).lobbyState < (mkEnv "foo;bar" "100").LOBBY_STATE_SYNCHRONIZED ∧
    (ForbiddenWords_onUnload (mkEnv "foo;bar" "100") ⟨0, []⟩).2 =
      [Effect.slog "Plugin unloaded" 3] ∧
    Effect.removeLobbyCommandHandler ["SAIDBATTLE"] ∉
      (ForbiddenWords_onUnload (mkEnv "foo;bar" "100") ⟨0, []⟩).2 := by
  decide

/-- C1 (amended): `TimePlugin.onUnload` unconditionally removes its `time`
handler and only afterwards logs; `ForbiddenWords.onUnload` removes its
`SAIDBATTLE` handler (and only afterwards logs) exactly when the lobby
state is at least synchronized; and — assuming the host has already
dropped the lobby handlers whenever the lobby state is below
synchronized — after unload each plugin's registered handler set is
empty. -/
theorem C1_unload_amended (env : SpadsEnv) (s : FwState) (t : TpState)
    (hs : ∀ n ∈ s.lobbyCommandHandlers, n = "SAIDBATTLE")
    (hdrop : s.lobbyState < env.LOBBY_STATE_SYNCHRONIZED → s.lobbyCommandHandlers = [])
    (ht : ∀ n ∈ t.spadsCommandHandlers, n = "time") :
    (TimePlugin_onUnload t).2 =
      [Effect.removeSpadsCommandHandler ["time"], Effect.slog "Plugin unloaded" 3] ∧
    (TimePlugin_onUnload t).1.spadsCommandHandlers = [] ∧
    (ForbiddenWords_onUnload env s).2 =
      (if env.LOBBY_STATE_SYNCHRONIZED ≤ s.lobbyState then
        [Effect.removeLobbyCommandHandler ["SAIDBATTLE"]] else []) ++
      [Effect.slog "Plugin unloaded" 3] ∧
    (ForbiddenWords_onUnload env s).1.lobbyCommandHandlers = [] := by
  have hsn : removeAll ["SAIDBATTLE"] s.lobbyCommandHandlers = [] :=
    removeAll_eq_nil (fun n hn => by simp [hs n hn])
  have htn : removeAll ["time"] t.spadsCommandHandlers = [] :=
    removeAll_eq_nil (fun n hn => by simp [ht n hn])
  have hfw : (ForbiddenWords_onUnload env s).1.lobbyCommandHandlers = [] := by
    unfold ForbiddenWords_onUnload
    by_cases hc : env.LOBBY_STATE_SYNCHRONIZED ≤ s.lobbyState
    · simp [hc, hsn]
    · simp [hc, hdrop (lt_of_not_le hc)]
  refine ⟨rfl, ?_, ?_, hfw⟩
  · simp [TimePlugin_onUnload, htn]
  · unfold ForbiddenWords_onUnload
    by_cases hc : env.LOBBY_STATE_SYNCHRONIZED ≤ s.lobbyState <;> simp [hc]

/-- C1 witness: the amended statement evaluated at a synchronized state
holding exactly the handlers the plugins register. -/
theorem C1_witness :
    (ForbiddenWords_onUnload (mkEnv "foo;bar" "100")
      ⟨4, ["SAIDBATTLE"]⟩).1.lobbyCommandHandlers = [] ∧
    (TimePlugin_onUnload ⟨["time"]⟩).1.spadsCommandHandlers = [] :=
  ⟨(C1_unload_amended (mkEnv "foo;bar" "100") ⟨4, ["SAIDBATTLE"]⟩ ⟨["time"]⟩
      (by decide) (by decide) (by decide)).2.2.2,
   (C1_unload_amended (mkEnv "foo;bar" "100") ⟨4, ["SAIDBATTLE"]⟩ ⟨["time"]⟩
      (by decide) (by decide) (by decide)).2.1⟩

/-- C2: with forbidden words `foo;bar` and a non-immune, non-self user,
the message `foobar` triggers nothing (whole-word boundary required);
`see foo here` and its upper-case variant `see FOO here` each trigger
exactly one public notice and exactly one KICKFROMBATTLE command
(case-insensitive matching); and `foo bar`, which matches both words,
still triggers the effects exactly once (first-match short-circuit). -/
theorem C2_whole_word_case_insensitive_short_circuit :
    hLobbySaidBattle (mkEnv "foo;bar" "100") "SAIDBATTLE" "Bob" "foobar" = some [] ∧
    hLobbySaidBattle (mkEnv "foo;bar" "100") "SAIDBATTLE" "Bob" "see foo here" =
      some [Effect.sayBattle "Kicking Bob from battle (watch your language!)",
            Effect.queueLobbyCommand ["KICKFROMBATTLE", "Bob"]] ∧
    hLobbySaidBattle (mkEnv "foo;bar" "100") "SAIDBATTLE" "Bob" "see FOO here" =
      some [Effect.sayBattle "Kicking Bob from battle (watch your language!)",
            Effect.queueLobbyCommand ["KICKFROMBATTLE", "Bob"]] ∧
    hLobbySaidBattle (mkEnv "foo;bar" "100") "SAIDBATTLE" "Bob" "foo bar" =
      some [Effect.sayBattle "Kicking Bob from battle (watch your language!)",
            Effect.queueLobbyCommand ["KICKFROMBATTLE", "Bob"]] := by
  refine ⟨?_, ?_, ?_, ?_⟩ <;> decide

/-- C3: the code is NOT a silent no-op when the `words` setting is the
empty string: `''.split(';')` yields `['']`, the resulting pattern
`\b\b` matches any message containing a word character, and the handler
kicks the (non-immune, non-self) user, here on the innocent message
`hi`. -/
theorem C3_empty_words_config_kicks :
    hLobbySaidBattle (mkEnv "" "100") "SAIDBATTLE" "Bob" "hi" =
      some [Effect.sayBattle "Kicking Bob from battle (watch your language!)",
            Effect.queueLobbyCommand ["KICKFROMBATTLE", "Bob"]] ∧
    hLobbySaidBattle (mkEnv "" "100") "SAIDBATTLE" "Bob" "hi" ≠ some [] := by
  decide

/-- C4: for every command handler of the corpus (`hSpadsTime` and
`hMyCommand`), every source channel, user and parameter list, a dry-run
(`checkOnly`) invocation produces an empty effect trace — no message, no
queued command, no log entry — and returns the accepted value `1`. -/
theorem C4_dry_run_no_side_effects (env : SpadsEnv) (source user : String)
    (params : List String) :
    hSpadsTime env source user params true = ([], some 1) ∧
    hMyCommand env source user params true = ([], some 1) :=
  ⟨rfl, rfl⟩

/-- C5: whenever the configured `immuneLevel` parses to a threshold `T`
and the (normalized) user's access level is at least `T`, the SAIDBATTLE
handler returns with no effects, for every message — in particular the
result does not depend on the message content. -/
theorem C5_immune_user_no_action (env : SpadsEnv) (command user message : String)
    (T : Int) (hT : pyInt? (env.pluginConf "immuneLevel") = some T)
    (hL : T ≤ env.getUserAccessLevel (env.fix_string user)) :
    hLobbySaidBattle env command user message = some [] := by
  unfold hLobbySaidBattle
  by_cases hu : env.fix_string user = env.spadsConf "lobbyLogin"
  · simp [hu]
  · simp [hu, hT, hL]

/-- C5 witness: threshold 0, user at level 0, message containing a
forbidden word — still no action. -/
theorem C5_witness :
    pyInt? ((mkEnv "foo;bar" "0").pluginConf "immuneLevel") = some 0 ∧
    (0 : Int) ≤ (mkEnv "foo;bar" "0").getUserAccessLevel
      ((mkEnv "foo;bar" "0").fix_string "Bob") ∧
    hLobbySaidBattle (mkEnv "foo;bar" "0") "SAIDBATTLE" "Bob" "foo" = some [] :=
  ⟨by decide, by decide,
   C5_immune_user_no_action (mkEnv "foo;bar" "0") "SAIDBATTLE" "Bob" "foo" 0
     (by decide) (by decide)⟩

/-- C6: `ForbiddenWords.onLobbySynchronized` makes the registration call in
every state (its trace never depends on the state), and if the plugin's
active handler set before a disconnect was `["SAIDBATTLE"]` (the set it
registers), then — the host having dropped all lobby handlers on the
disconnect — the callback restores exactly that set. -/
theorem C6_reconnect_restores_handlers (s : FwState) (d : Int) :
    (ForbiddenWords_onLobbySynchronized s).2 =
      [Effect.addLobbyCommandHandler ["SAIDBATTLE"]] ∧
    (s.lobbyCommandHandlers = ["SAIDBATTLE"] →
      (ForbiddenWords_onLobbySynchronized (hostDisconnect d s)).1.lobbyCommandHandlers =
        s.lobbyCommandHandlers) := by
  refine ⟨rfl, ?_⟩
  intro h
  simp [ForbiddenWords_onLobbySynchronized, hostDisconnect, addHandler, h]

/-- C6 witness: a synchronized state with the handler registered,
disconnected to state 0, then reconnected. -/
theorem C6_witness :
    (ForbiddenWords_onLobbySynchronized ⟨4, ["SAIDBATTLE"]⟩).2 =
      [Effect.addLobbyCommandHandler ["SAIDBATTLE"]] ∧
    (ForbiddenWords_onLobbySynchronized
        (hostDisconnect 0 ⟨4, ["SAIDBATTLE"]⟩)).1.lobbyCommandHandlers =
      (⟨4, ["SAIDBATTLE"]⟩ : FwState).lobbyCommandHandlers :=
  ⟨(C6_reconnect_restores_handlers ⟨4, ["SAIDBATTLE"]⟩ 0).1,
   (C6_reconnect_restores_handlers ⟨4, ["SAIDBATTLE"]⟩ 0).2 rfl⟩

/-- C7: `100-120` is permitted by the declared `['integer','integerRange']`
validator tags for `immuneLevel`, yet the SAIDBATTLE handler raises
(`int('100-120')` is a `ValueError`, modelled as `none`) on any message
from a non-self user. -/
theorem C7_integer_range_value_raises :
    allowedImmuneLevel "100-120" = true ∧
    hLobbySaidBattle (mkEnv "foo" "100-120") "SAIDBATTLE" "Bob" "hi" = none := by
  decide

/-- C8 counterexample: a real invocation of `hMyCommand` with parameters
`["a","b"]` sends no reply at all — its trace holds a single log entry and
no `answer`/`sayPrivate`/`sayBattle` effect — contradicting the claim that
a reply is sent back on the source channel. -/
theorem C8_counterexample :
    (hMyCommand (mkEnv "foo;bar" "100") "battle" "Bob" ["a", "b"] false) =
      ([Effect.slog "User Bob called command myCommand with parameter(s) \"a,b\"" 3],
       none) ∧
    (hMyCommand (mkEnv "foo;bar" "100") "battle" "Bob" ["a", "b"] false).1.all
      (fun e => !(isReply e)) = true := by
  decide

/-- C8 (amended): a real invocation of `hMyCommand` with parameters
`["a","b"]` emits no reply; it emits exactly one notice-level log entry
whose text contains `a,b`, and returns Python `None`. -/
theorem C8_amended_log_contains_params :
    (hMyCommand (mkEnv "foo;bar" "100") "battle" "Bob" ["a", "b"] false) =
      ([Effect.slog "User Bob called command myCommand with parameter(s) \"a,b\"" 3],
       none) ∧
    strContains "User Bob called command myCommand with parameter(s) \"a,b\"" "a,b" =
      true := by
  decide

/-- C9: whenever the (normalized) sender equals the core-config
`lobbyLogin`, the SAIDBATTLE handler returns with no effects for every
message and every plugin configuration and access-level assignment — in
particular it cannot raise even when `immuneLevel` is unparseable, since
it returns before reading the plugin configuration. -/
theorem C9_self_message_no_action (env : SpadsEnv) (command user message : String)
    (h : env.fix_string user = env.spadsConf "lobbyLogin") :
    hLobbySaidBattle env command user message = some [] := by
  unfold hLobbySaidBattle
  simp [h]

/-- C9 witness: sender `SPADS` equals `lobbyLogin`; the message matches the
configured word and `immuneLevel` is unparseable, yet nothing happens. -/
theorem C9_witness :
    (mkEnv "hi" "not an integer").fix_string "SPADS" =
      (mkEnv "hi" "not an integer").spadsConf "lobbyLogin" ∧
    pyInt? ((mkEnv "hi" "not an integer").pluginConf "immuneLevel") = none ∧
    hLobbySaidBattle (mkEnv "hi" "not an integer") "SAIDBATTLE" "SPADS" "hi" = some [] :=
  ⟨by decide, by decide,
   C9_self_message_no_action (mkEnv "hi" "not an integer") "SAIDBATTLE" "SPADS" "hi"
     (by decide)⟩

/-- C10: `HelloWorld.onPrivateMsg` returns 0 for every sender and message,
sends exactly one private reply `Hello World` to the (normalized) sender
when the normalized message is exactly `Hello`, and sends nothing
otherwise. -/
theorem C10_helloworld_private_msg (env : SpadsEnv) (userName message : String) :
    (onPrivateMsg env userName message).2 = 0 ∧
    (env.fix_string message = "Hello" →
      (onPrivateMsg env userName message).1 =
        [Effect.sayPrivate (env.fix_string userName) "Hello World"]) ∧
    (env.fix_string message ≠ "Hello" →
      (onPrivateMsg env userName message).1 = []) := by
  unfold onPrivateMsg
  refine ⟨rfl, ?_, ?_⟩ <;> intro h <;> simp [h]

/-- C10 witness: sender `Bob` saying exactly `Hello` gets the reply;
the return value is 0. -/
theorem C10_witness :
    (onPrivateMsg (mkEnv "" "0") "Bob" "Hello").2 = 0 ∧
    (onPrivateMsg (mkEnv "" "0") "Bob" "Hello").1 =
      [Effect.sayPrivate "Bob" "Hello World"] :=
  ⟨(C10_helloworld_private_msg (mkEnv "" "0") "Bob" "Hello").1,
   (C10_helloworld_private_msg (mkEnv "" "0") "Bob" "Hello").2.1 rfl⟩
